import Mathlib

/-
Verification of the reminder scheduling and dispatch subsystem of the
xpired backend (Go). The Go sources are embedded shallowly:

  * time.Time values are pairs of an absolute instant (seconds since the
    Unix epoch) and a fixed zone offset in seconds. Every time.Time that
    reaches the scheduling code in this repository carries a fixed-offset
    location: expiration dates are decoded from RFC3339 JSON (UTC or a
    fixed numeric offset), and time.FixedZone produces fixed offsets by
    construction. AddDate is embedded through proleptic-Gregorian civil
    date arithmetic (daysFromCivil / civilFromDays), matching the Go
    standard library calendar on fixed-offset locations.
  * The Postgres tables users, documents and document_reminders are lists
    of records; SQL statements from internal/db/repository.go become list
    operations with the same observable behaviour (plain INSERT appends,
    UPDATE maps over matching rows, a zero rows-affected count is the
    "not found" error).
  * The asynq delayed queue is a list of tasks; Enqueue with ProcessAt
    appends a task carrying its scheduled instant. The worker package
    calls no cancellation operation anywhere, so the embedding has none.
  * Handlers from internal/api/router.go and internal/worker/server.go
    become functions from an explicit repository state to a result,
    with transport outcomes passed in as booleans.
-/

namespace Xpired

/-! ## Civil date arithmetic (embedding of the Go time package calendar) -/

/-- Day count of a proleptic Gregorian civil date, with day 0 being
1970-01-01.  Linear in the day field, which is exactly how the Go
time.Date normalization treats an out-of-range day. -/
def daysFromCivil (y m d : Int) : Int :=
  let y2 : Int := if m ≤ 2 then y - 1 else y
  let era : Int := Int.ediv y2 400
  let yoe : Int := y2 - era * 400
  let mp : Int := Int.emod (m + 9) 12
  let doy : Int := Int.ediv (153 * mp + 2) 5 + d - 1
  let doe : Int := yoe * 365 + Int.ediv yoe 4 - Int.ediv yoe 100 + doy
  era * 146097 + doe - 719468

/-- Civil date (year, month, day) of an epoch day count; inverse of
daysFromCivil on in-range dates. -/
def civilFromDays (z0 : Int) : Int × Int × Int :=
  let z : Int := z0 + 719468
  let era : Int := Int.ediv z 146097
  let doe : Int := z - era * 146097
  let yoe : Int :=
    Int.ediv (doe - Int.ediv doe 1460 + Int.ediv doe 36524 - Int.ediv doe 146096) 365
  let y : Int := yoe + era * 400
  let doy : Int := doe - (365 * yoe + Int.ediv yoe 4 - Int.ediv yoe 100)
  let mp : Int := Int.ediv (5 * doy + 2) 153
  let d : Int := doy - Int.ediv (153 * mp + 2) 5 + 1
  let m : Int := mp + (if mp < 10 then 3 else -9)
  (if m ≤ 2 then y + 1 else y, m, d)

/-! ## Go time.Time on fixed-offset locations -/

/-- Embedding of a Go time.Time whose location is a fixed offset:
the absolute instant in seconds since the Unix epoch together with the
zone offset in seconds east of UTC. -/
structure GoTime where
  sec : Int
  offset : Int
  deriving DecidableEq, Repr

/-- The Go zero time.Time: January 1 of year 1, 00:00:00 UTC. -/
def goTimeZero : GoTime := ⟨daysFromCivil 1 1 1 * 86400, 0⟩

/-- Embedding of time.Time.IsZero. -/
def GoTime.isZero (t : GoTime) : Bool := t = goTimeZero

/-- Embedding of time.Time.Before: comparison of absolute instants. -/
def GoTime.before (t u : GoTime) : Bool := t.sec < u.sec

/-- Embedding of time.Time.UTC: same instant, offset zero. -/
def GoTime.utc (t : GoTime) : GoTime := ⟨t.sec, 0⟩

/-- Embedding of t.AddDate(0, 0, days) on a fixed-offset location:
read the civil date and time of day in the location, shift the day
field, and renormalize through the calendar. -/
def GoTime.addDateDays (t : GoTime) (days : Int) : GoTime :=
  let wall : Int := t.sec + t.offset
  let dayNum : Int := Int.ediv wall 86400
  let tod : Int := Int.emod wall 86400
  let c := civilFromDays dayNum
  let newDay : Int := daysFromCivil c.1 c.2.1 (c.2.2 + days)
  ⟨newDay * 86400 + tod - t.offset, t.offset⟩

/-- Convenience constructor: midnight UTC on a civil date, as produced
by decoding an RFC3339 date such as 2025-03-10T00:00:00Z. -/
def mkUtcMidnight (y m d : Int) : GoTime := ⟨daysFromCivil y m d * 86400, 0⟩

/-! ## Data model (internal/db and migrations/001_initial_schema.up.sql) -/

/-- Row of the reminder_intervals catalog table. -/
structure ReminderInterval where
  id : Int
  label : String
  daysBefore : Int
  idLabel : String
  deriving DecidableEq, Repr

/-- Row of the users table; phone_number is a nullable text column. -/
structure User where
  id : String
  email : String
  phoneNumber : Option String
  name : String
  deriving DecidableEq, Repr

/-- Row of the documents table / the db.Document record.  The id fields
are uuids, embedded as strings. -/
structure Document where
  id : String
  userId : String
  name : String
  description : Option String
  identifier : Option String
  expirationDate : GoTime
  timezone : String
  attachmentUrl : Option String
  createdAt : GoTime
  updatedAt : GoTime
  deriving DecidableEq, Repr

/-- Row of the document_reminders table.  The schema has no uniqueness
constraint on (document_id, reminder_interval_id); the row id is a
uuid generated by uuid.New, embedded as an uninterpreted string that no
claim depends on. -/
structure DocumentReminder where
  id : String
  documentId : String
  reminderIntervalId : Int
  enabled : Bool
  sentAt : Option GoTime
  deriving DecidableEq, Repr

/-- The api.DocumentRequest body of a create or update request.  Fields
absent from the JSON body decode to their Go zero values: empty strings,
nil pointers (Option.none) and the zero time.Time. -/
structure DocumentRequest where
  name : String
  description : Option String
  identifier : Option String
  expirationDate : GoTime
  timezone : String
  attachmentUrl : Option String
  reminders : List String
  deriving DecidableEq, Repr

/-- The repository state: the three tables the reminder subsystem touches. -/
structure RepoState where
  users : List User
  documents : List Document
  documentReminders : List DocumentReminder
  deriving DecidableEq, Repr

/-! ## Repository operations (internal/db/repository.go) -/

/-- Embedding of Repository.GetUserEmail: SELECT email FROM users WHERE id = $1. -/
def getUserEmail (st : RepoState) (userID : String) : Except String String :=
  match st.users.find? (fun u => u.id = userID) with
  | some u => .ok u.email
  | none => .error "user does not exist"

/-- Embedding of Repository.GetUserPhoneNumber.  Scanning a NULL
phone_number into a Go string fails in the sql driver, so a user whose
phone is NULL yields an error, like a missing user. -/
def getUserPhoneNumber (st : RepoState) (userID : String) : Except String String :=
  match st.users.find? (fun u => u.id = userID) with
  | some u =>
      match u.phoneNumber with
      | some p => .ok p
      | none => .error "failed to get user phone number"
  | none => .error "user does not exist"

/-- Embedding of Repository.GetDocumentByID. -/
def getDocumentByID (st : RepoState) (documentID : String) : Except String Document :=
  match st.documents.find? (fun d => d.id = documentID) with
  | some d => .ok d
  | none => .error "document not found"

/-- Embedding of Repository.GetReminderIntervalsFromIdLabels: the SQL
WHERE id_label = ANY($1) returns the catalog rows whose id_label occurs
in the requested list, in table order; labels matching no row produce
nothing and no error. -/
def getReminderIntervalsFromIdLabels (catalog : List ReminderInterval)
    (idLabels : List String) : List ReminderInterval :=
  catalog.filter (fun i => idLabels.contains i.idLabel)

/-- Embedding of Repository.SetDocumentReminders: a plain INSERT into
document_reminders appending one row (no ON CONFLICT clause, and the
schema has no unique index on the pair). -/
def setDocumentReminders (rows : List DocumentReminder) (documentID : String)
    (reminder : DocumentReminder) : List DocumentReminder :=
  rows ++ [{ reminder with documentId := documentID }]

/-- Embedding of Repository.ToggleDocumentReminder: UPDATE
document_reminders SET enabled = $1, sent_at = NULL for the pair, with
the zero rows-affected case reported as the not-found error. -/
def toggleDocumentReminder (rows : List DocumentReminder) (documentID : String)
    (reminderIntervalID : Int) (enabled : Bool) :
    Except String (List DocumentReminder) :=
  if (rows.filter (fun r =>
      r.documentId = documentID ∧ r.reminderIntervalId = reminderIntervalID)).length
      = 0 then
    .error "document reminder not found"
  else
    .ok (rows.map (fun r =>
      if r.documentId = documentID ∧ r.reminderIntervalId = reminderIntervalID then
        { r with enabled := enabled, sentAt := none }
      else r))

/-! ## Delayed dispatch queue and schedule computation (internal/worker/jobs.go) -/

/-- An asynq task produced by enqueueDelayedTask: the task type, the
payload fields marshalled into it, and the ProcessAt instant (seconds
since the Unix epoch, UTC). -/
structure Task where
  taskType : String
  userId : String
  documentId : String
  intervalId : Int
  processAt : Int
  deriving DecidableEq, Repr

/-- The task ScheduleReminders builds for one interval. -/
def mkReminderTask (doc : Document) (userID : String) (interval : ReminderInterval)
    (fire : GoTime) : Task :=
  { taskType := "send_reminder", userId := userID, documentId := doc.id,
    intervalId := interval.id, processAt := fire.utc.sec }

/-- Embedding of worker.ScheduleReminders: for each enabled interval,
reminderTime := doc.ExpirationDate.AddDate(0, 0, -interval.DaysBefore);
intervals whose reminderTime is Before(now) are skipped with a log line,
the rest are enqueued at reminderTime.UTC().  The document timezone
field is never consulted.  The returned list is the sequence of tasks
handed to the queue client. -/
def scheduleReminders (doc : Document) (userID : String)
    (enabledIntervals : List ReminderInterval) (now : GoTime) : List Task :=
  match enabledIntervals with
  | [] => []
  | interval :: rest =>
      let reminderTime := doc.expirationDate.addDateDays (-interval.daysBefore)
      if reminderTime.before now then
        scheduleReminders doc userID rest now
      else
        mkReminderTask doc userID interval reminderTime ::
          scheduleReminders doc userID rest now

/-- Count of outstanding queued tasks for one (document, interval) binding. -/
def outstandingFor (queue : List Task) (documentID : String) (intervalID : Int) : Nat :=
  (queue.filter (fun t => t.documentId = documentID ∧ t.intervalId = intervalID)).length

/-! ## Reminder executor (internal/worker/server.go, NewMux handler) -/

/-- Payload of a send_reminder task after json.Unmarshal in the handler;
the marshal/unmarshal round trip through the queue is assumed faithful. -/
structure ReminderPayload where
  userId : String
  documentId : String
  intervalId : Int
  deriving DecidableEq, Repr

instance {ε α : Type} [DecidableEq ε] [DecidableEq α] : DecidableEq (Except ε α) :=
  fun a b =>
  match a, b with
  | .ok x, .ok y =>
      if h : x = y then isTrue (h ▸ rfl) else
        isFalse (fun hh => h (Except.ok.inj hh))
  | .ok _, .error _ => isFalse (fun h => Except.noConfusion h)
  | .error _, .ok _ => isFalse (fun h => Except.noConfusion h)
  | .error e1, .error e2 =>
      if h : e1 = e2 then isTrue (h ▸ rfl) else
        isFalse (fun hh => h (Except.error.inj hh))

/-- Observable outcome of one execution of the send_reminder handler:
the handler return value (error means the queue retries the task), and
per channel whether the transport was invoked and whether it reported
success. -/
structure ExecOutcome where
  result : Except String Unit
  emailAttempted : Bool
  emailDelivered : Bool
  smsAttempted : Bool
  smsDelivered : Bool
  deriving DecidableEq, Repr

/-- The phone string the handler ends up with: the fetched value, or the
empty string when the lookup errors (the Go code discards the error:
userPhone, _ := repo.GetUserPhoneNumber, leaving the zero value). -/
def phoneOrEmpty (st : RepoState) (userID : String) : String :=
  match getUserPhoneNumber st userID with
  | .ok s => s
  | .error _ => ""

/-- Embedding of the send_reminder handler registered in worker.NewMux.
The transport results are inputs (emailFails, smsFails).  The handler
fetches the user email and the document, returning their errors (which
makes the queue retry); then it always invokes SendEmail, logging but
otherwise ignoring a failure; then it reads the phone number, ignoring
any error (the Go code discards it, leaving the empty string), and
invokes SendSMS when the phone is nonempty, discarding its result.  It
never consults the document_reminders table, and it returns nil. -/
def handleSendReminder (st : RepoState) (p : ReminderPayload)
    (emailFails smsFails : Bool) : ExecOutcome :=
  match getUserEmail st p.userId with
  | .error e => ⟨.error e, false, false, false, false⟩
  | .ok _userEmail =>
      match getDocumentByID st p.documentId with
      | .error e => ⟨.error e, false, false, false, false⟩
      | .ok _doc =>
          let userPhone : String := phoneOrEmpty st p.userId
          if userPhone ≠ "" then
            ⟨.ok (), true, !emailFails, true, !smsFails⟩
          else
            ⟨.ok (), true, !emailFails, false, false⟩

/-! ## Document handlers (internal/api/router.go) -/

/-- Embedding of the required-fields check of CreateDocumentHandler:
the only validation the create path performs on the request body.  The
timezone string is checked for emptiness only; nothing on the create
path (or later, in scheduling) verifies that it names a known zone —
the response formatting wraps it in time.FixedZone(tz, 0), which accepts
any string as a label. -/
def validateCreateDocument (req : DocumentRequest) : Option String :=
  if req.name = "" ∨ req.expirationDate.isZero ∨ req.timezone = "" then
    some "Missing required fields"
  else
    none

/-- Embedding of the create path of CreateDocumentHandler after the
auth and user-existence checks: validate required fields, insert the
document, resolve the requested interval codes against the catalog,
insert one document_reminders row per resolved interval (enabled, with
sent_at NULL), and call worker.ScheduleReminders with the resolved
intervals.  The fresh document uuid is passed in as docID. -/
def createDocumentCore (st : RepoState) (queue : List Task)
    (catalog : List ReminderInterval) (userID : String) (req : DocumentRequest)
    (docID : String) (now : GoTime) : Except String (RepoState × List Task) :=
  match validateCreateDocument req with
  | some e => .error e
  | none =>
      let newDoc : Document :=
        { id := docID, userId := userID, name := req.name,
          description := req.description, identifier := req.identifier,
          expirationDate := req.expirationDate, timezone := req.timezone,
          attachmentUrl := req.attachmentUrl, createdAt := now, updatedAt := now }
      let st1 : RepoState := { st with documents := st.documents ++ [newDoc] }
      let resolved := getReminderIntervalsFromIdLabels catalog req.reminders
      let rows := resolved.foldl
        (fun rows i => setDocumentReminders rows docID
          { id := "", documentId := docID, reminderIntervalId := i.id,
            enabled := true, sentAt := none })
        st1.documentReminders
      let st2 : RepoState := { st1 with documentReminders := rows }
      .ok (st2, queue ++ scheduleReminders newDoc userID resolved now)

/-- Embedding of the field merge in UpdateDocumentHandler (the chain of
zero-value guards) followed by the repository UpdateDocument statement,
whose SET clause writes name, description, identifier, expiration_date,
timezone, attachment_url and updated_at = NOW() and never touches
created_at.  now is the handler clock, nowDb the database NOW(). -/
def applyUpdate (doc : Document) (req : DocumentRequest) (now nowDb : GoTime) :
    Document :=
  let d1 := if req.name ≠ "" then { doc with name := req.name } else doc
  let d2 := if req.description.isSome then { d1 with description := req.description } else d1
  let d3 := if req.identifier.isSome then { d2 with identifier := req.identifier } else d2
  let d4 := if ¬ req.expirationDate.isZero then
              { d3 with expirationDate := req.expirationDate } else d3
  let d5 := if req.timezone ≠ "" then { d4 with timezone := req.timezone } else d4
  let d6 := if req.attachmentUrl.isSome then
              { d5 with attachmentUrl := req.attachmentUrl } else d5
  let d7 := { d6 with updatedAt := now }
  { d7 with updatedAt := nowDb }

/-- Embedding of the update path of UpdateDocumentHandler after the
auth and user-existence checks: fetch the document, check ownership,
merge the non-zero request fields, store the merged document, resolve
the requested interval codes, and insert one fresh document_reminders
row per resolved interval.  The update path never calls
worker.ScheduleReminders and never removes or cancels anything: the
queue is returned unchanged. -/
def updateDocumentCore (st : RepoState) (queue : List Task)
    (catalog : List ReminderInterval) (userID : String) (documentID : String)
    (req : DocumentRequest) (now nowDb : GoTime) :
    Except String (RepoState × List Task) :=
  match getDocumentByID st documentID with
  | .error _ => .error "Document not found"
  | .ok doc0 =>
      if doc0.userId ≠ userID then .error "Forbidden" else
      let doc2 := applyUpdate doc0 req now nowDb
      let st1 : RepoState :=
        { st with documents := st.documents.map (fun d => if d.id = documentID then doc2 else d) }
      let resolved := getReminderIntervalsFromIdLabels catalog req.reminders
      let rows := resolved.foldl
        (fun rows i => setDocumentReminders rows documentID
          { id := "", documentId := documentID, reminderIntervalId := i.id,
            enabled := true, sentAt := none })
        st1.documentReminders
      .ok ({ st1 with documentReminders := rows }, queue)

/-! ## Fire instant as specified (spec section 4.2) -/

/-- Modelled from the spec: computeFireInstant(expirationDate, timezone,
daysBefore).  The IANA zone database is external to this repository, so
a timezone is supplied as the UTC offset (seconds east) in effect at
local midnight of each civil date.  Following the spec words: interpret
the expiration date as a calendar date with no time component, localize
to midnight in the zone, subtract daysBefore calendar days, convert to
UTC. -/
def computeFireInstantSpec (expY expM expD : Int)
    (offsetAtMidnight : Int × Int × Int → Int) (daysBefore : Int) : Int :=
  let fireDay := daysFromCivil expY expM (expD - daysBefore)
  fireDay * 86400 - offsetAtMidnight (civilFromDays fireDay)

/-- Modelled from the spec: the America/New_York offset around the
March 2025 DST transition (spec section 8: EST, UTC-5, in effect on
2025-03-03; EDT, UTC-4, from the transition on 2025-03-09). -/
def americaNewYorkOffset (date : Int × Int × Int) : Int :=
  if daysFromCivil date.1 date.2.1 date.2.2 < daysFromCivil 2025 3 9 then
    -5 * 3600
  else
    -4 * 3600

/-- UTC as an offset function. -/
def utcOffset (_date : Int × Int × Int) : Int := 0

/-! ## Concrete fixtures used by the claim instances -/

/-- Catalog row for the 7d interval (migrations/002 seeds 1 week before). -/
def interval7d : ReminderInterval :=
  { id := 1, label := "1 week before", daysBefore := 7, idLabel := "7d" }

/-- Catalog row for the 0d (day-of) interval. -/
def interval0d : ReminderInterval :=
  { id := 4, label := "On the day", daysBefore := 0, idLabel := "0d" }

/-- A document expiring 2025-03-10, stored with timezone America/New_York;
the expiration instant is the decoded RFC3339 value 2025-03-10T00:00:00Z. -/
def docNY : Document :=
  { id := "doc-1", userId := "user-1", name := "Passport",
    description := none, identifier := none,
    expirationDate := mkUtcMidnight 2025 3 10,
    timezone := "America/New_York", attachmentUrl := none,
    createdAt := mkUtcMidnight 2025 1 1, updatedAt := mkUtcMidnight 2025 1 1 }

/-- Clock instant 2025-01-01T00:00:00Z, well before the fire window. -/
def now2025 : GoTime := mkUtcMidnight 2025 1 1

/-- A user with both email and phone on file. -/
def userAnn : User :=
  { id := "user-2", email := "a@b.com", phoneNumber := some "+15550100", name := "Ann" }

/-- A document owned by userAnn. -/
def docVisa : Document :=
  { id := "doc-2", userId := "user-2", name := "Visa",
    description := none, identifier := none,
    expirationDate := mkUtcMidnight 2025 3 10, timezone := "UTC",
    attachmentUrl := none,
    createdAt := mkUtcMidnight 2025 1 1, updatedAt := mkUtcMidnight 2025 1 1 }

/-- A binding for (docVisa, interval7d) that the user has disabled. -/
def disabledBinding : DocumentReminder :=
  { id := "bind-2", documentId := "doc-2", reminderIntervalId := 1,
    enabled := false, sentAt := none }

/-- Repository state at fire time for the disabled-binding scenario. -/
def stDisabled : RepoState :=
  { users := [userAnn], documents := [docVisa], documentReminders := [disabledBinding] }

/-- The payload of the task that was scheduled for (docVisa, interval7d). -/
def payloadVisa : ReminderPayload :=
  { userId := "user-2", documentId := "doc-2", intervalId := 1 }

/-- An update request changing only the expiration date and reminders. -/
def reqMoveExpiry : DocumentRequest :=
  { name := "", description := none, identifier := none,
    expirationDate := mkUtcMidnight 2026 6 1, timezone := "",
    attachmentUrl := none, reminders := ["7d"] }

/-- Repository state holding docNY for the update scenario. -/
def stWithDocNY : RepoState :=
  { users := [], documents := [docNY], documentReminders := [] }

/-- A create request whose timezone names no known zone. -/
def reqBadTz : DocumentRequest :=
  { name := "Passport", description := none, identifier := none,
    expirationDate := mkUtcMidnight 2025 3 10, timezone := "Not/AZone",
    attachmentUrl := none, reminders := ["7d"] }

/-- A document expiring 2030-01-01 with a day-of reminder. -/
def docDayOf : Document :=
  { id := "doc-5", userId := "user-5", name := "Permit",
    description := none, identifier := none,
    expirationDate := mkUtcMidnight 2030 1 1, timezone := "UTC",
    attachmentUrl := none,
    createdAt := mkUtcMidnight 2025 1 1, updatedAt := mkUtcMidnight 2025 1 1 }

/-- Clock instant exactly equal to the day-of fire instant of docDayOf. -/
def nowBoundary : GoTime := mkUtcMidnight 2030 1 1

/-- A create request enabling 7d on a document expiring 2030-01-01. -/
def reqCreate7d : DocumentRequest :=
  { name := "Passport", description := none, identifier := none,
    expirationDate := mkUtcMidnight 2030 1 1, timezone := "UTC",
    attachmentUrl := none, reminders := ["7d"] }

/-- Create then update with the same reminder code, tracking the final
document_reminders table; both repository writes are plain inserts. -/
def createThenUpdate : Option RepoState :=
  match createDocumentCore ⟨[], [], []⟩ [] [interval7d] "user-6" reqCreate7d
      "doc-6" now2025 with
  | .error _ => none
  | .ok (st1, q1) =>
      match updateDocumentCore st1 q1 [interval7d] "user-6" "doc-6" reqCreate7d
          now2025 now2025 with
      | .error _ => none
      | .ok (st2, _) => some st2

/-- A create request containing one recognized and one unknown code. -/
def reqMixedCodes : DocumentRequest :=
  { name := "Passport", description := none, identifier := none,
    expirationDate := mkUtcMidnight 2030 1 1, timezone := "UTC",
    attachmentUrl := none, reminders := ["7d", "999mystery"] }

/-- A document owned by user-9, already stored before the mixed-codes
update request arrives. -/
def doc9 : Document :=
  { id := "doc-9", userId := "user-9", name := "Passport",
    description := none, identifier := none,
    expirationDate := mkUtcMidnight 2030 1 1, timezone := "UTC",
    attachmentUrl := none, createdAt := now2025, updatedAt := now2025 }

/-- Repository state holding doc9 for the update-path scenario. -/
def stWithDoc9 : RepoState :=
  { users := [], documents := [doc9], documentReminders := [] }

/-- An update request whose optional fields are all zero-valued. -/
def reqOnlyName : DocumentRequest :=
  { name := "Renamed", description := none, identifier := none,
    expirationDate := goTimeZero, timezone := "",
    attachmentUrl := none, reminders := [] }

/-- A binding that already fired in a previous cycle and was disabled. -/
def rowPassport : DocumentReminder :=
  { id := "bind-7", documentId := "doc-7", reminderIntervalId := 1,
    enabled := false, sentAt := some now2025 }

/-- The same binding after the re-enable toggle. -/
def toggledRow : DocumentReminder :=
  { rowPassport with enabled := true, sentAt := none }

/-! ## Claim instances -/

/-- C1: the claim states that the fire instant equals the UTC instant of
local midnight on the expiration date minus daysBefore calendar days in
the document timezone.  ScheduleReminders applies AddDate to the stored
expiration instant and never consults the timezone field: for docNY
(expires 2025-03-10, America/New_York, interval 7d) it enqueues at
2025-03-03T00:00:00Z — the value the spec formula yields for UTC — and
not at the specified 2025-03-03T05:00:00Z (= 1740978000, local midnight
in EST, the value of the spec section 8 example). -/
theorem C1_fire_instant_ignores_timezone :
    (scheduleReminders docNY "user-1" [interval7d] now2025).map Task.processAt =
      [computeFireInstantSpec 2025 3 10 utcOffset 7] ∧
    computeFireInstantSpec 2025 3 10 utcOffset 7 ≠
      computeFireInstantSpec 2025 3 10 americaNewYorkOffset 7 ∧
    computeFireInstantSpec 2025 3 10 americaNewYorkOffset 7 = 1740978000 := by
  decide

/-- C2: the claim states that a delivered task whose binding is disabled
causes the executor to acknowledge and exit with no transport call.  In
stDisabled every binding is disabled, yet the handler attempts both
channels (and returns nil): it never reads document_reminders. -/
theorem C2_executor_sends_despite_disabled_binding :
    (stDisabled.documentReminders.all (fun r => !r.enabled)) = true ∧
    handleSendReminder stDisabled payloadVisa false false =
      { result := .ok (), emailAttempted := true, emailDelivered := true,
        smsAttempted := true, smsDelivered := true } := by
  decide

/-- C3: the claim states at most one outstanding task per binding, with
re-runs enqueuing no duplicate and updates cancelling before
re-enqueuing.  Running ScheduleReminders twice for the unchanged
document leaves two outstanding tasks for the (doc-1, interval 1)
binding, and UpdateDocumentHandler — which calls no cancel and no
re-scheduling at all — returns the queue unchanged even when the
request moves the expiration date. -/
theorem C3_rescheduling_duplicates_and_update_never_cancels :
    outstandingFor
      (scheduleReminders docNY "user-1" [interval7d] now2025 ++
        scheduleReminders docNY "user-1" [interval7d] now2025) "doc-1" 1 = 2 ∧
    (updateDocumentCore stWithDocNY
        (scheduleReminders docNY "user-1" [interval7d] now2025)
        [interval7d] "user-1" "doc-1" reqMoveExpiry now2025 now2025).toOption.map
      Prod.snd =
      some (scheduleReminders docNY "user-1" [interval7d] now2025) := by
  decide

/-- C4: the claim states that an unrecognized timezone is rejected with a
validation error.  The create path only checks the timezone string for
emptiness: the request reqBadTz with timezone Not/AZone passes
validation, the create succeeds, and the computed schedule is identical
to the one computed for a real zone name — the string is never looked
up, it is silently treated as a label for a zero-offset zone. -/
theorem C4_unknown_timezone_accepted :
    validateCreateDocument reqBadTz = none ∧
    (createDocumentCore ⟨[], [], []⟩ [] [interval7d] "user-4" reqBadTz "doc-4"
      now2025).isOk = true ∧
    ((createDocumentCore ⟨[], [], []⟩ [] [interval7d] "user-4" reqBadTz "doc-4"
      now2025).toOption.map (fun r => r.2.map Task.processAt)) =
      ((createDocumentCore ⟨[], [], []⟩ [] [interval7d] "user-4"
        { reqBadTz with timezone := "America/New_York" } "doc-4"
        now2025).toOption.map (fun r => r.2.map Task.processAt)) := by
  decide

/-- C5 counterexample: the claim states that an occurrence whose fire
instant equals the current instant is skipped.  For docDayOf with the
day-of interval at nowBoundary the fire instant equals the clock
instant exactly, and ScheduleReminders enqueues the task (Before is a
strict comparison). -/
theorem C5_boundary_enqueued_counterexample :
    (docDayOf.expirationDate.addDateDays (-interval0d.daysBefore)).sec =
      nowBoundary.sec ∧
    scheduleReminders docDayOf "user-5" [interval0d] nowBoundary =
      [mkReminderTask docDayOf "user-5" interval0d
        (docDayOf.expirationDate.addDateDays (-interval0d.daysBefore))] := by
  decide

/-- C6: the claim states at most one document_reminders row per
(document, interval) pair, with create and update upserting.  Creating
doc-6 with code 7d and then updating it with the same code leaves two
rows for the pair (doc-6, interval 1): both paths plainly insert, and
the schema has no unique index on the pair. -/
theorem C6_duplicate_binding_rows_after_update :
    createThenUpdate.map (fun st =>
      (st.documentReminders.filter
        (fun r => r.documentId = "doc-6" ∧ r.reminderIntervalId = 1)).length) =
      some 2 := by
  decide

/-- Folding the plain-insert repository write over a list of intervals
appends one row per interval, in order. -/
theorem foldl_setDocumentReminders (docID : String)
    (mk : ReminderInterval → DocumentReminder) (l : List ReminderInterval)
    (init : List DocumentReminder) :
    l.foldl (fun rows i => setDocumentReminders rows docID (mk i)) init =
      init ++ l.map (fun i => { mk i with documentId := docID }) := by
  induction l generalizing init with
  | nil => simp
  | cons i rest ih =>
      rw [List.foldl_cons, ih]
      simp [setDocumentReminders]

/-- C5 (amended): an occurrence whose computed fire instant is strictly
before the current instant is skipped without error, and every
occurrence whose fire instant is at or after the current instant —
including one exactly equal to it — is enqueued: the schedule is the
enabled list filtered by the strict Before comparison. -/
theorem C5_strictly_past_skipped (doc : Document) (userID : String)
    (ints : List ReminderInterval) (now : GoTime) :
    scheduleReminders doc userID ints now =
      (ints.filter (fun i =>
        !(doc.expirationDate.addDateDays (-i.daysBefore)).before now)).map
        (fun i => mkReminderTask doc userID i
          (doc.expirationDate.addDateDays (-i.daysBefore))) := by
  induction ints with
  | nil => rfl
  | cons i rest ih =>
      simp only [scheduleReminders, List.filter]
      cases h : (doc.expirationDate.addDateDays (-i.daysBefore)).before now with
      | false => simp [h, ih]
      | true => simp [h, ih]

/-- C7: whenever the toggle operation succeeds with enabled set to true,
every row of the resulting table that belongs to the toggled
(document, interval) pair is enabled and has its sentAt cleared to
null: no stale sentAt stamp survives re-enablement. -/
theorem C7_toggle_enable_clears_sentAt (rows rows2 : List DocumentReminder)
    (documentID : String) (intervalID : Int)
    (h : toggleDocumentReminder rows documentID intervalID true = .ok rows2) :
    ∀ r ∈ rows2, r.documentId = documentID → r.reminderIntervalId = intervalID →
      r.enabled = true ∧ r.sentAt = none := by
  intro r hr hdoc hint
  unfold toggleDocumentReminder at h
  split at h
  · exact Except.noConfusion h
  · rw [Except.ok.injEq] at h
    subst h
    rcases List.mem_map.mp hr with ⟨s, _hs, rfl⟩
    by_cases hc : s.documentId = documentID ∧ s.reminderIntervalId = intervalID
    · simp [hc]
    · simp only [if_neg hc] at hdoc hint
      exact absurd ⟨hdoc, hint⟩ hc

/-- Witness for C7: re-enabling the fired-and-disabled binding of
rowPassport leaves it enabled with sentAt cleared. -/
theorem C7_witness : toggledRow.enabled = true ∧ toggledRow.sentAt = none :=
  C7_toggle_enable_clears_sentAt [rowPassport] [toggledRow] "doc-7" 1
    (by decide) toggledRow (by decide) (by decide) (by decide)

/-- C8: when the user and document lookups succeed, a failing email
transport leaves the handler returning nil (the task neither fails nor
retries), the email is attempted but undelivered, and the SMS attempt
is unchanged from the succeeding-email run: it happens exactly when a
nonempty phone number is on file. -/
theorem C8_email_failure_does_not_block_sms (st : RepoState)
    (p : ReminderPayload) (smsFails : Bool) (userEmail : String) (doc : Document)
    (hu : getUserEmail st p.userId = .ok userEmail)
    (hd : getDocumentByID st p.documentId = .ok doc) :
    (handleSendReminder st p true smsFails).result = .ok () ∧
    (handleSendReminder st p true smsFails).emailAttempted = true ∧
    (handleSendReminder st p true smsFails).emailDelivered = false ∧
    (handleSendReminder st p true smsFails).smsAttempted =
      (handleSendReminder st p false smsFails).smsAttempted ∧
    (phoneOrEmpty st p.userId ≠ "" →
      (handleSendReminder st p true smsFails).smsAttempted = true) := by
  unfold handleSendReminder
  rw [hu, hd]
  by_cases hp : phoneOrEmpty st p.userId ≠ ""
  · simp [hp]
  · simp [hp]

/-- Witness for C8: at stDisabled (userAnn has a phone on file) with the
email transport failing, the handler still returns nil and attempts the
SMS. -/
theorem C8_witness :
    (handleSendReminder stDisabled payloadVisa true false).result = .ok () ∧
    (handleSendReminder stDisabled payloadVisa true false).smsAttempted = true := by
  have h := C8_email_failure_does_not_block_sms stDisabled payloadVisa false
    "a@b.com" docVisa (by decide) (by decide)
  exact ⟨h.1, h.2.2.2.2 (by decide)⟩

/-- C9: for any catalog and any requested code list, both write paths
resolve the codes the same way and neither reports an error for unknown
codes.  On the create path (once the required-fields check passes) and
on the update path (once the document is found and owned by the
caller), the operation succeeds, the rows written are exactly one
enabled binding (sentAt null) per catalog entry whose code was
requested, in catalog order, and every new row originates from a
catalog entry whose code is in the request — codes absent from the
catalog produce no binding and no error on either path. -/
theorem C9_unknown_codes_silently_dropped (st : RepoState) (queue : List Task)
    (catalog : List ReminderInterval) (userID : String) (req : DocumentRequest)
    (docID : String) (now nowDb : GoTime) (doc0 : Document) :
    (validateCreateDocument req = none →
      ∃ st2 tasks,
        createDocumentCore st queue catalog userID req docID now =
          .ok (st2, tasks) ∧
        st2.documentReminders = st.documentReminders ++
          (catalog.filter (fun i => req.reminders.contains i.idLabel)).map
            (fun i => { id := "", documentId := docID,
                        reminderIntervalId := i.id, enabled := true,
                        sentAt := none }) ∧
        (∀ r ∈ st2.documentReminders, r ∉ st.documentReminders →
          ∃ i, i ∈ catalog ∧ i.idLabel ∈ req.reminders ∧
            r.reminderIntervalId = i.id ∧ r.enabled = true ∧ r.sentAt = none)) ∧
    (getDocumentByID st docID = .ok doc0 → doc0.userId = userID →
      ∃ st3,
        updateDocumentCore st queue catalog userID docID req now nowDb =
          .ok (st3, queue) ∧
        st3.documentReminders = st.documentReminders ++
          (catalog.filter (fun i => req.reminders.contains i.idLabel)).map
            (fun i => { id := "", documentId := docID,
                        reminderIntervalId := i.id, enabled := true,
                        sentAt := none }) ∧
        (∀ r ∈ st3.documentReminders, r ∉ st.documentReminders →
          ∃ i, i ∈ catalog ∧ i.idLabel ∈ req.reminders ∧
            r.reminderIntervalId = i.id ∧ r.enabled = true ∧ r.sentAt = none)) := by
  constructor
  · intro hv
    unfold createDocumentCore
    rw [hv]
    refine ⟨_, _, rfl, ?_, ?_⟩
    · simp only [getReminderIntervalsFromIdLabels, foldl_setDocumentReminders]
    · intro r hr hnew
      simp only [getReminderIntervalsFromIdLabels, foldl_setDocumentReminders] at hr
      rcases List.mem_append.mp hr with hold | hmap
      · exact absurd hold hnew
      · rcases List.mem_map.mp hmap with ⟨i, hi, rfl⟩
        rcases List.mem_filter.mp hi with ⟨hic, hlab⟩
        exact ⟨i, hic, by simpa using hlab, rfl, rfl, rfl⟩
  · intro hd ho
    unfold updateDocumentCore
    rw [hd]
    simp only [ho, ne_eq, not_true_eq_false, if_false, ite_false]
    refine ⟨_, rfl, ?_, ?_⟩
    · simp only [getReminderIntervalsFromIdLabels, foldl_setDocumentReminders]
    · intro r hr hnew
      simp only [getReminderIntervalsFromIdLabels, foldl_setDocumentReminders] at hr
      rcases List.mem_append.mp hr with hold | hmap
      · exact absurd hold hnew
      · rcases List.mem_map.mp hmap with ⟨i, hi, rfl⟩
        rcases List.mem_filter.mp hi with ⟨hic, hlab⟩
        exact ⟨i, hic, by simpa using hlab, rfl, rfl, rfl⟩

/-- Witness for C9: the request reqMixedCodes, whose code list holds one
catalog code and one unknown code, succeeds on the create path at the
empty state and on the update path at stWithDoc9. -/
theorem C9_witness :
    (∃ st2 tasks,
      createDocumentCore ⟨[], [], []⟩ [] [interval7d] "user-9" reqMixedCodes
        "doc-9" now2025 = .ok (st2, tasks)) ∧
    (∃ st3,
      updateDocumentCore stWithDoc9 [] [interval7d] "user-9" "doc-9"
        reqMixedCodes now2025 now2025 = .ok (st3, [])) := by
  obtain ⟨hc, -⟩ :=
    C9_unknown_codes_silently_dropped ⟨[], [], []⟩ [] [interval7d] "user-9"
      reqMixedCodes "doc-9" now2025 now2025 doc9
  obtain ⟨-, hu⟩ :=
    C9_unknown_codes_silently_dropped stWithDoc9 [] [interval7d] "user-9"
      reqMixedCodes "doc-9" now2025 now2025 doc9
  obtain ⟨st2, tasks, h1, -, -⟩ := hc (by decide)
  obtain ⟨st3, h2, -, -⟩ := hu (by decide) (by decide)
  exact ⟨⟨st2, tasks, h1⟩, ⟨st3, h2⟩⟩

/-- Closed form of the update merge: each field is governed by its own
zero-value guard, and updatedAt ends at the database NOW() value. -/
theorem applyUpdate_eq (doc : Document) (req : DocumentRequest)
    (now nowDb : GoTime) :
    applyUpdate doc req now nowDb =
      { id := doc.id, userId := doc.userId,
        name := if req.name ≠ "" then req.name else doc.name,
        description :=
          if req.description.isSome then req.description else doc.description,
        identifier :=
          if req.identifier.isSome then req.identifier else doc.identifier,
        expirationDate :=
          if ¬ req.expirationDate.isZero then req.expirationDate
          else doc.expirationDate,
        timezone := if req.timezone ≠ "" then req.timezone else doc.timezone,
        attachmentUrl :=
          if req.attachmentUrl.isSome then req.attachmentUrl
          else doc.attachmentUrl,
        createdAt := doc.createdAt, updatedAt := nowDb } := by
  simp only [applyUpdate]
  split_ifs <;> rfl

/-- C10: the update merge overwrites exactly the non-zero request fields
together with updatedAt (which takes the database NOW() value), leaves
every zero-valued field at its stored value, and never modifies id,
userId or createdAt. -/
theorem C10_update_preserves_zero_fields (doc : Document)
    (req : DocumentRequest) (now nowDb : GoTime) :
    (applyUpdate doc req now nowDb).id = doc.id ∧
    (applyUpdate doc req now nowDb).userId = doc.userId ∧
    (applyUpdate doc req now nowDb).createdAt = doc.createdAt ∧
    (applyUpdate doc req now nowDb).updatedAt = nowDb ∧
    (req.name = "" → (applyUpdate doc req now nowDb).name = doc.name) ∧
    (req.name ≠ "" → (applyUpdate doc req now nowDb).name = req.name) ∧
    (req.description = none →
      (applyUpdate doc req now nowDb).description = doc.description) ∧
    (req.description.isSome →
      (applyUpdate doc req now nowDb).description = req.description) ∧
    (req.identifier = none →
      (applyUpdate doc req now nowDb).identifier = doc.identifier) ∧
    (req.identifier.isSome →
      (applyUpdate doc req now nowDb).identifier = req.identifier) ∧
    (req.expirationDate.isZero →
      (applyUpdate doc req now nowDb).expirationDate = doc.expirationDate) ∧
    (¬ req.expirationDate.isZero →
      (applyUpdate doc req now nowDb).expirationDate = req.expirationDate) ∧
    (req.timezone = "" → (applyUpdate doc req now nowDb).timezone = doc.timezone) ∧
    (req.timezone ≠ "" → (applyUpdate doc req now nowDb).timezone = req.timezone) ∧
    (req.attachmentUrl = none →
      (applyUpdate doc req now nowDb).attachmentUrl = doc.attachmentUrl) ∧
    (req.attachmentUrl.isSome →
      (applyUpdate doc req now nowDb).attachmentUrl = req.attachmentUrl) := by
  rw [applyUpdate_eq]
  refine ⟨rfl, rfl, rfl, rfl, ?_, ?_, ?_, ?_, ?_, ?_, ?_, ?_, ?_, ?_, ?_, ?_⟩ <;>
    intro hx <;> simp [hx]

/-- Witness for C10: updating docNY with reqOnlyName renames it, leaves
the zero-valued timezone and expiration date fields at their stored
values, and preserves createdAt. -/
theorem C10_witness :
    (applyUpdate docNY reqOnlyName now2025 nowBoundary).name = "Renamed" ∧
    (applyUpdate docNY reqOnlyName now2025 nowBoundary).timezone = docNY.timezone ∧
    (applyUpdate docNY reqOnlyName now2025 nowBoundary).expirationDate =
      docNY.expirationDate ∧
    (applyUpdate docNY reqOnlyName now2025 nowBoundary).createdAt =
      docNY.createdAt := by
  have h := C10_update_preserves_zero_fields docNY reqOnlyName now2025 nowBoundary
  exact ⟨h.2.2.2.2.2.1 (by decide), h.2.2.2.2.2.2.2.2.2.2.2.2.1 (by decide),
    h.2.2.2.2.2.2.2.2.2.2.1 (by decide), h.2.2.1⟩

end Xpired
